import Mathlib

/-!
Sandcastle-Utilities: verification of the Command Executor and the
Snapshot-Mutate-Deploy-Restore engine.

Shallow embedding of the Python sources of the Sandcastle-Utilities
repository:

* `cli/salesforce_cli.py` — the `SalesforceCLI` wrapper (`_execute_sf_command`,
  `is_sandbox`, `query_records`, `update_record`, the query log);
* `sf_triggers.py` — the `TriggerManager` disable/enable flows and the
  `main` mode dispatch;
* `sf_validations.py` — `manage_validation_rules_in_temp_project`;
* `sf_custom_settings.py` — the `CustomSettingManager` checkbox flows.

Subprocess invocations are modelled by passing each call's observable
outcome (exit code, parsed stdout, stderr) as an explicit argument; file
system state (snapshot/state files, retrieved metadata files) is passed
and returned explicitly.
-/

namespace Sandcastle

/-- JSON-like values as decoded by Python's `json.loads` from the tool's
stdout.  Numbers are modelled as integers (the tool's `status` and record
fields relevant here are integral or boolean). -/
inductive JVal where
  | jnull
  | jbool (b : Bool)
  | jnum (n : Int)
  | jstr (s : String)
  | jarr (xs : List JVal)
  | jobj (fields : List (String × JVal))

/-- Python truthiness (`if x:`) for the modelled JSON values. -/
def JVal.truthy : JVal → Bool
  | .jnull => false
  | .jbool b => b
  | .jnum n => n != 0
  | .jstr s => !s.isEmpty
  | .jarr xs => !xs.isEmpty
  | .jobj fs => !fs.isEmpty

/-- Dictionary lookup, `d.get(k)`: the first binding of `k` (Python dict
keys are unique, so first = only). -/
def jget (o : List (String × JVal)) (k : String) : Option JVal :=
  match o.find? (fun p => p.1 == k) with
  | some p => some p.2
  | none => none

mutual

/-- Python `repr` of a JSON value, used when a non-string payload is
interpolated into an error message. -/
def JVal.pyRepr : JVal → String
  | .jnull => "None"
  | .jbool true => "True"
  | .jbool false => "False"
  | .jnum n => toString n
  | .jstr s => "\x27" ++ s ++ "\x27"
  | .jarr xs => "[" ++ JVal.pyReprList xs ++ "]"
  | .jobj fs => "\x7b" ++ JVal.pyReprFields fs ++ "\x7d"

/-- Rendering of the elements of a Python list by `repr`, comma separated. -/
def JVal.pyReprList : List JVal → String
  | [] => ""
  | [x] => x.pyRepr
  | x :: xs => x.pyRepr ++ ", " ++ JVal.pyReprList xs

/-- Rendering of the items of a Python dict by `repr`, comma separated. -/
def JVal.pyReprFields : List (String × JVal) → String
  | [] => ""
  | [(k, v)] => "\x27" ++ k ++ "\x27: " ++ v.pyRepr
  | (k, v) :: fs => "\x27" ++ k ++ "\x27: " ++ v.pyRepr ++ ", " ++ JVal.pyReprFields fs

end

/-- Python `str` of a JSON value (`f"...{value}..."` interpolation). -/
def JVal.pyStr : JVal → String
  | .jstr s => s
  | v => v.pyRepr

/-- Does the character list `s` start with `pat`? -/
def listStarts (s pat : List Char) : Bool :=
  match pat, s with
  | [], _ => true
  | _ :: _, [] => false
  | p :: ps, c :: cs => c == p && listStarts cs ps

/-- Does `pat` occur as a contiguous sublist of `s`? -/
def listHasSub : List Char → List Char → Bool
  | [], pat => pat.isEmpty
  | c :: s, pat => listStarts (c :: s) pat || listHasSub s pat

/-- Python's substring test `pat in s`. -/
def containsSub (s pat : String) : Bool :=
  listHasSub s.toList pat.toList

/-- Python `json_output.get('status') != 0` (line 104 of
`cli/salesforce_cli.py`): `None != 0` is `True`, `False != 0` is `False`
(bools compare equal to ints in Python), any non-numeric, non-boolean
value differs from `0`. -/
def statusNeZero : Option JVal → Bool
  | some (.jnum n) => n != 0
  | some (.jbool b) => b
  | some _ => true
  | none => true

/-- Python `result.get('status') == 0` used by the read helpers. -/
def statusEqZero : Option JVal → Bool
  | some (.jnum n) => n == 0
  | some (.jbool b) => !b
  | _ => false

/-- Observable outcome of one `subprocess.run` of the `sf` tool:
exit code, the parsed JSON object from stdout (`[]` models both an empty
stdout and stdout that failed to parse, in which case the Python code
keeps `json_output = {}`), and the raw stderr text. -/
structure ProcResult where
  returncode : Int
  jsonOutput : List (String × JVal)
  stderr : String

/-- The `RuntimeError` raised by `SalesforceCLI._execute_sf_command` on a
failed command: the rendered message, plus the structured JSON payload
attached as `sf_error_data`. -/
structure ExecError where
  message : String
  errorData : List (String × JVal)

/-- Result of `SalesforceCLI._execute_sf_command`. -/
inductive ExecResult where
  | ok (json : List (String × JVal))
  | err (e : ExecError)

/-- The tool's own error message: the `message` field of the JSON body,
or the default used at line 105 of `cli/salesforce_cli.py`. -/
def sfErrorBase (r : ProcResult) : String :=
  match jget r.jsonOutput "message" with
  | some v => v.pyStr
  | none => "Unknown error from Salesforce CLI."

/-- The error message built by `_execute_sf_command` lines 104-113 and
re-wrapped by the outer `except Exception` handler (lines 118-123):
`message` field of the JSON (or a default), then `\nSTDERR: ...` when
stderr is non-empty, wrapped twice. -/
def sfErrorMessage (r : ProcResult) : String :=
  "An unexpected error occurred while running an SF CLI command: " ++
    ("SF CLI command failed: " ++
      (if r.stderr.isEmpty then sfErrorBase r
       else sfErrorBase r ++ "\nSTDERR: " ++ r.stderr))

/-- Embedding of `SalesforceCLI._execute_sf_command` (lines 73-123), given the
subprocess outcome: the command fails iff the exit code is non-zero OR
the JSON `status` field is (Python-)different from `0`; on failure the
raised error carries the message and the whole JSON payload
(`sf_error_data`), otherwise the parsed JSON is returned.  (The
`FileNotFoundError` branch — tool binary absent — is outside this model,
which presupposes the subprocess ran.) -/
def execute_sf_command (r : ProcResult) : ExecResult :=
  if r.returncode != 0 || statusNeZero (jget r.jsonOutput "status") then
    .err { message := sfErrorMessage r, errorData := r.jsonOutput }
  else
    .ok r.jsonOutput

lemma toList_append (a b : String) : (a ++ b).toList = a.toList ++ b.toList := by
  cases a; cases b; rfl

lemma listStarts_self (p : List Char) : listStarts p p = true := by
  induction p with
  | nil => rfl
  | cons c s ih => simp [listStarts, ih]

lemma listHasSub_self (p : List Char) : listHasSub p p = true := by
  cases p with
  | nil => rfl
  | cons c s => simp [listHasSub, listStarts_self]

lemma listHasSub_nil_pat (s : List Char) : listHasSub s [] = true := by
  cases s <;> simp [listHasSub, listStarts]

lemma listStarts_append_of (s t pat : List Char) (h : listStarts s pat = true) :
    listStarts (s ++ t) pat = true := by
  induction pat generalizing s with
  | nil => simp [listStarts]
  | cons p ps ih =>
    cases s with
    | nil => simp [listStarts] at h
    | cons c s =>
      simp only [listStarts, Bool.and_eq_true] at h
      simpa [listStarts, h.1] using ih s h.2

lemma listHasSub_append_left (a b pat : List Char) (h : listHasSub b pat = true) :
    listHasSub (a ++ b) pat = true := by
  induction a with
  | nil => simpa using h
  | cons c s ih => simp [listHasSub, ih]

lemma listHasSub_append_right (s t pat : List Char) (h : listHasSub s pat = true) :
    listHasSub (s ++ t) pat = true := by
  induction s with
  | nil =>
    have hpat : pat = [] := by simpa [listHasSub] using h
    subst hpat
    exact listHasSub_nil_pat t
  | cons c s ih =>
    rw [List.cons_append]
    simp only [listHasSub, Bool.or_eq_true] at h ⊢
    rcases h with h | h
    · left
      rw [← List.cons_append]
      exact listStarts_append_of _ _ _ h
    · right
      exact ih h

lemma containsSub_self (s : String) : containsSub s s = true :=
  listHasSub_self s.toList

lemma containsSub_append_left (a s pat : String) (h : containsSub s pat = true) :
    containsSub (a ++ s) pat = true := by
  unfold containsSub at *
  rw [toList_append]
  exact listHasSub_append_left _ _ _ h

lemma containsSub_append_right (s t pat : String) (h : containsSub s pat = true) :
    containsSub (s ++ t) pat = true := by
  unfold containsSub at *
  rw [toList_append]
  exact listHasSub_append_right _ _ _ h

/-- C1: an invocation whose process exits `0` but whose JSON body carries
`status: 1` is classified as failure by `_execute_sf_command`: a
`RuntimeError` is produced whose attached `sf_error_data` is the whole
structured payload and whose message contains any stderr text and the
tool's own `message` field; the call never returns the success result. -/
theorem execute_exit0_status1_is_failure (r : ProcResult)
    (h0 : r.returncode = 0)
    (h1 : jget r.jsonOutput "status" = some (.jnum 1)) :
    (∃ e, execute_sf_command r = .err e ∧
      e.errorData = r.jsonOutput ∧
      (r.stderr ≠ "" → containsSub e.message r.stderr = true) ∧
      (∀ m, jget r.jsonOutput "message" = some (.jstr m) →
        containsSub e.message m = true)) ∧
    ∀ j, execute_sf_command r ≠ .ok j := by
  have hfail : execute_sf_command r =
      .err { message := sfErrorMessage r, errorData := r.jsonOutput } := by
    unfold execute_sf_command
    rw [h1]
    simp [statusNeZero]
  refine ⟨⟨_, hfail, rfl, ?_, ?_⟩, ?_⟩
  · intro hstderr
    have hne : r.stderr.isEmpty = false := by
      cases he : r.stderr.isEmpty
      · rfl
      · exact absurd ((String.isEmpty_iff _).mp he) hstderr
    unfold sfErrorMessage
    rw [hne]
    simp only [Bool.false_eq_true, if_false]
    apply containsSub_append_left
    apply containsSub_append_left
    apply containsSub_append_left
    exact containsSub_self _
  · intro m hm
    have hbase : sfErrorBase r = m := by
      unfold sfErrorBase
      rw [hm]
      rfl
    unfold sfErrorMessage
    rw [hbase]
    cases he : r.stderr.isEmpty
    · simp only [Bool.false_eq_true, if_false]
      apply containsSub_append_left
      apply containsSub_append_left
      apply containsSub_append_right
      apply containsSub_append_right
      exact containsSub_self _
    · simp only [if_true]
      apply containsSub_append_left
      apply containsSub_append_left
      exact containsSub_self _
  · intro j hj
    rw [hfail] at hj
    exact ExecResult.noConfusion hj

/-- A concrete subprocess outcome: exit code 0, JSON body with
`status: 1` and a tool error message, non-empty stderr. -/
def procW : ProcResult :=
  { returncode := 0
    jsonOutput := [("status", .jnum 1),
                   ("message", .jstr "Update failed: invalid field"),
                   ("result", .jarr [])]
    stderr := "Warning: deprecated flag" }

/-- Witness for C1 at a concrete subprocess outcome. -/
theorem execute_exit0_status1_is_failure_witness :
    (procW.returncode = 0 ∧ jget procW.jsonOutput "status" = some (.jnum 1)) ∧
    ((∃ e, execute_sf_command procW = .err e ∧
      e.errorData = procW.jsonOutput ∧
      (procW.stderr ≠ "" → containsSub e.message procW.stderr = true) ∧
      (∀ m, jget procW.jsonOutput "message" = some (.jstr m) →
        containsSub e.message m = true)) ∧
    ∀ j, execute_sf_command procW ≠ .ok j) :=
  ⟨⟨rfl, rfl⟩, execute_exit0_status1_is_failure procW rfl rfl⟩

/-! Section: Environment Safety Gate (`SalesforceCLI.is_sandbox` and its callers) -/

/-- The outcomes of the two lookups `is_sandbox` can perform, for one
`SalesforceCLI` instance:
* `orgQuery` — the outcome of `query_records("SELECT IsSandbox FROM
  Organization LIMIT 1")`: the records value on success, or the raised
  error's message;
* `orgDisplay` — the outcome of `_execute_sf_command(['org', 'display'])`. -/
structure OrgProbe where
  orgQuery : Except String JVal
  orgDisplay : Except ExecError (List (String × JVal))

/-- Python `records[0]` as used by `get_organization_details`; any
non-sequence value would raise there, and that exception is caught and
turned into `None` by the surrounding handler, so `none` is the faithful
image of every non-`jarr` case. -/
def pyIndex0 : JVal → Option JVal
  | .jarr (x :: _) => some x
  | _ => none

/-- Embedding of `SalesforceCLI.get_organization_details` (lines 149-161): first
record of the `IsSandbox` query if the query succeeded and returned a
truthy (non-empty) records value; `None` otherwise (all exceptions are
caught and mapped to `None`). -/
def get_organization_details (p : OrgProbe) : Option JVal :=
  match p.orgQuery with
  | .error _ => none
  | .ok records => if records.truthy then pyIndex0 records else none

/-- Embedding of `SalesforceCLI.get_org_info` (lines 125-147), without the per-alias
cache (irrelevant for a single call): re-raises the executor's error; on
success returns `result.get('result')` when the response is truthy with
`status == 0`, else `None`. -/
def get_org_info (p : OrgProbe) : Except ExecError (Option JVal) :=
  match p.orgDisplay with
  | .error e => .error e
  | .ok json =>
      if !json.isEmpty && statusEqZero (jget json "status") then
        .ok (jget json "result")
      else
        .ok none

/-- The URL fallback of `is_sandbox` (lines 176-181):
`if org_info and 'instanceUrl' in org_info:` then test whether the
lowercased URL contains `'.sandbox.'`, else return `False`.  A non-string
`instanceUrl` value would raise on `.lower()` (`AttributeError`).
Non-dict payloads are modelled as the membership test failing (which is
what Python computes for the sequence shapes the tool can produce), i.e.
`False`. -/
def fallback_url_check : Option JVal → Except String JVal
  | some (.jobj fs) =>
      if !fs.isEmpty && (jget fs "instanceUrl").isSome then
        match jget fs "instanceUrl" with
        | some (.jstr url) => .ok (.jbool (containsSub url.toLower ".sandbox."))
        | some _ => .error "AttributeError"
        | none => .ok (.jbool false)
      else .ok (.jbool false)
  | _ => .ok (.jbool false)

/-- Outcome of `SalesforceCLI.is_sandbox`: the value it returns (or the
message of the exception it lets propagate), together with whether the
URL fallback path was entered. -/
structure SandboxCheck where
  result : Except String JVal
  usedFallback : Bool

/-- The fallback arm of `is_sandbox` (lines 174-181). -/
def fallback_check (p : OrgProbe) : SandboxCheck :=
  match get_org_info p with
  | .error e => { result := .error e.message, usedFallback := true }
  | .ok info => { result := fallback_url_check info, usedFallback := true }

/-- Embedding of `SalesforceCLI.is_sandbox` (lines 163-181): if the Organization
query yields a truthy record, return `record.get('IsSandbox', False)`
without consulting the fallback; otherwise fall back to the instance-URL
check.  A truthy non-dict record would raise `AttributeError` on
`.get`. -/
def is_sandbox (p : OrgProbe) : SandboxCheck :=
  match get_organization_details p with
  | some d =>
      if d.truthy then
        match d with
        | .jobj fs =>
            { result := .ok ((jget fs "IsSandbox").getD (.jbool false))
              usedFallback := false }
        | _ => { result := .error "AttributeError", usedFallback := false }
      else fallback_check p
  | none => fallback_check p

/-- Outcome of the guard at the top of `SalesforceCLI.update_record`
(lines 47-53). -/
inductive MutationGate where
  | proceeds
  | blockedProduction (msg : String)
  | propagatedError (msg : String)
deriving DecidableEq, Repr

/-- The `update_record` guard: `if not self.is_sandbox(): raise
RuntimeError(...)`; an exception from `is_sandbox` itself propagates. -/
def update_record_gate (p : OrgProbe) (targetOrg : Option String) : MutationGate :=
  match (is_sandbox p).result with
  | .error m => .propagatedError m
  | .ok v =>
      if v.truthy then .proceeds
      else .blockedProduction
        ("Record update cannot be performed on PRODUCTION org \x27" ++
          targetOrg.getD "default" ++
          "\x27. This operation is only allowed on sandbox environments.")

/-- C2: whenever the primary signal is obtainable (the Organization
query yields a record) and that record says `IsSandbox: false`, the
fallback is never consulted, `is_sandbox` returns `False`, and
`update_record` is blocked by a raised error — whatever the
`org display` fallback would have said. -/
theorem production_primary_blocks_mutation (p : OrgProbe)
    (fs : List (String × JVal)) (org : Option String)
    (hrec : get_organization_details p = some (.jobj fs))
    (hsb : jget fs "IsSandbox" = some (.jbool false)) :
    (is_sandbox p).usedFallback = false ∧
    (is_sandbox p).result = .ok (.jbool false) ∧
    ∃ m, update_record_gate p org = .blockedProduction m := by
  have hne : fs.isEmpty = false := by
    cases fs with
    | nil => simp [jget, List.find?] at hsb
    | cons a l => rfl
  have hsand : is_sandbox p =
      { result := .ok ((jget fs "IsSandbox").getD (.jbool false))
        usedFallback := false } := by
    unfold is_sandbox
    rw [hrec]
    simp [JVal.truthy, hne]
  have hgate : update_record_gate p org = .blockedProduction
      ("Record update cannot be performed on PRODUCTION org \x27" ++
        org.getD "default" ++
        "\x27. This operation is only allowed on sandbox environments.") := by
    unfold update_record_gate
    rw [hsand, hsb]
    rfl
  refine ⟨?_, ?_, ⟨_, hgate⟩⟩
  · rw [hsand]
  · rw [hsand, hsb]
    rfl

/-- A concrete probe: the Organization query reports a production org
while the fallback URL carries a `.sandbox.` marker (the two signals
contradict each other). -/
def probeProd : OrgProbe :=
  { orgQuery := .ok (.jarr [.jobj [("IsSandbox", .jbool false)]])
    orgDisplay := .ok
      [("status", .jnum 0),
       ("result", .jobj
         [("instanceUrl", .jstr "https://acme.sandbox.my.salesforce.com")])] }

/-- Witness for C2: at `probeProd` the primary signal wins and the
mutation is blocked even though the fallback URL says sandbox. -/
theorem production_primary_blocks_mutation_witness :
    (get_organization_details probeProd =
        some (.jobj [("IsSandbox", .jbool false)]) ∧
      jget [("IsSandbox", JVal.jbool false)] "IsSandbox" =
        some (.jbool false)) ∧
    ((is_sandbox probeProd).usedFallback = false ∧
      (is_sandbox probeProd).result = .ok (.jbool false) ∧
      ∃ m, update_record_gate probeProd (some "QASB1") = .blockedProduction m) :=
  ⟨⟨rfl, rfl⟩,
    production_primary_blocks_mutation probeProd
      [("IsSandbox", .jbool false)] (some "QASB1") rfl rfl⟩

/-- Outcome of the safety check at the top of
`manage_validation_rules_in_temp_project` (`sf_validations.py`
lines 94-108). -/
inductive GateOutcome where
  | verified
  | blocked (msg : String)
  | warnedProceed (msg : String)
deriving DecidableEq, Repr

/-- The marker test of the `except RuntimeError` handler (line 104):
`"SAFETY CHECK FAILED" in str(e) or "production org" in str(e)`. -/
def safetyMarkerHit (msg : String) : Bool :=
  containsSub msg "SAFETY CHECK FAILED" || containsSub msg "production org"

/-- The safety check of `manage_validation_rules_in_temp_project`
(lines 94-108): if `is_sandbox()` returns a falsy value the function
raises `Cannot perform {mode} operation on production org '{target}'`;
a `RuntimeError` whose text carries one of the safety markers is
re-raised (blocking), any other one only warns and the operation
proceeds. -/
def validations_safety_gate (p : OrgProbe) (mode targetOrg : String) : GateOutcome :=
  match (is_sandbox p).result with
  | .ok v =>
      if v.truthy then .verified
      else
        let msg := "Cannot perform " ++ mode ++ " operation on production org \x27" ++
          targetOrg ++ "\x27"
        if safetyMarkerHit msg then .blocked msg else .warnedProceed msg
  | .error m =>
      if safetyMarkerHit m then .blocked m else .warnedProceed m

/-- A probe on which neither signal can determine the sandbox status:
the Organization query raises, and `org display` succeeds but its
payload carries no `instanceUrl`. -/
def probeUndetermined : OrgProbe :=
  { orgQuery := .error "Connection timed out"
    orgDisplay := .ok [("status", .jnum 0), ("result", .jobj [])] }

/-- Counterexample to C3 as stated: on `probeUndetermined` neither the
primary query nor the fallback URL signal can determine the sandbox
status, yet `is_sandbox` returns `False` and the safety check BLOCKS the
operation (raising the production-org error) instead of warning and
proceeding. -/
theorem undetermined_status_blocks_counterexample :
    (is_sandbox probeUndetermined).result = .ok (.jbool false) ∧
    validations_safety_gate probeUndetermined "disable" "QASB1" =
      .blocked "Cannot perform disable operation on production org \x27QASB1\x27" ∧
    ∀ m, validations_safety_gate probeUndetermined "disable" "QASB1" ≠
      .warnedProceed m := by
  refine ⟨rfl, by decide, ?_⟩
  intro m hm
  rw [show validations_safety_gate probeUndetermined "disable" "QASB1" =
    .blocked "Cannot perform disable operation on production org \x27QASB1\x27"
    from by decide] at hm
  exact GateOutcome.noConfusion hm

/-- C3 (amended): if the primary query cannot determine the status and
the fallback `org display` call itself raises (with a message free of
the safety markers), the check only warns and the operation proceeds.
(When both calls succeed but yield no sandbox signal, `is_sandbox`
instead returns `False` and the operation is blocked — see the
counterexample.) -/
theorem undetermined_by_exception_warns (p : OrgProbe) (mode org : String)
    (e : ExecError)
    (hq : get_organization_details p = none)
    (hd : p.orgDisplay = .error e)
    (hm : safetyMarkerHit e.message = false) :
    validations_safety_gate p mode org = .warnedProceed e.message := by
  have hsand : is_sandbox p = { result := .error e.message, usedFallback := true } := by
    unfold is_sandbox
    rw [hq]
    unfold fallback_check get_org_info
    rw [hd]
  unfold validations_safety_gate
  rw [hsand]
  simp [hm]

/-- A probe where the primary query raises and the fallback command
fails as well (its error message carries no safety marker). -/
def probeBothRaise : OrgProbe :=
  { orgQuery := .error "Connection timed out"
    orgDisplay := .error
      { message := "An unexpected error occurred while running an SF CLI command: SF CLI command failed: ECONNREFUSED"
        errorData := [] } }

/-- Witness for the amended C3 at `probeBothRaise`. -/
theorem undetermined_by_exception_warns_witness :
    (get_organization_details probeBothRaise = none ∧
      safetyMarkerHit "An unexpected error occurred while running an SF CLI command: SF CLI command failed: ECONNREFUSED" = false) ∧
    validations_safety_gate probeBothRaise "disable" "QASB1" =
      .warnedProceed "An unexpected error occurred while running an SF CLI command: SF CLI command failed: ECONNREFUSED" :=
  ⟨⟨rfl, by decide⟩,
    undetermined_by_exception_warns probeBothRaise "disable" "QASB1" _ rfl rfl
      (by decide)⟩

/-! Section: Trigger manager (`sf_triggers.py`)

A retrieved trigger metadata file is modelled as a `(name, status)` pair
(the `status` element text, e.g. `"Active"`, `"Inactive"` or
`"Unknown"`). -/

/-- Embedding of `TriggerManager.disable_triggers` (lines 309-337): walk the metadata
files in order; every file whose status reads `"Active"` is rewritten to
`"Inactive"` and recorded in `changed_triggers` under its original
status; all other files are left untouched and unrecorded.  Returns
(files after, `changed_triggers`). -/
def disable_triggers : List (String × String) → List (String × String) × List (String × String)
  | [] => ([], [])
  | (n, st) :: rest =>
      if st == "Active" then
        ((n, "Inactive") :: (disable_triggers rest).1,
         (n, "Active") :: (disable_triggers rest).2)
      else
        ((n, st) :: (disable_triggers rest).1, (disable_triggers rest).2)

/-- Embedding of `TriggerManager.enable_triggers` (lines 339-360): every metadata
file whose name appears in the saved state is rewritten to its recorded
original status; files not in the state are untouched. -/
def enable_triggers (state : List (String × String)) (files : List (String × String)) :
    List (String × String) :=
  files.map fun f =>
    match List.lookup f.1 state with
    | some orig => (f.1, orig)
    | none => f

lemma disable_triggers_names (files : List (String × String)) :
    ((disable_triggers files).1).map Prod.fst = files.map Prod.fst := by
  induction files with
  | nil => rfl
  | cons hd tl ih =>
    obtain ⟨n, st⟩ := hd
    by_cases h : st = "Active"
    · simp [disable_triggers, h, ih]
    · have hb : (st == "Active") = false := beq_eq_false_iff_ne.mpr h
      simp [disable_triggers, hb, ih]

lemma disable_triggers_changed_lookup_none (files : List (String × String))
    (m : String) (hm : m ∉ files.map Prod.fst) :
    List.lookup m (disable_triggers files).2 = none := by
  induction files with
  | nil => rfl
  | cons hd tl ih =>
    obtain ⟨n, st⟩ := hd
    simp only [List.map_cons, List.mem_cons, not_or] at hm
    have hmn : (m == n) = false := beq_eq_false_iff_ne.mpr hm.1
    by_cases h : st = "Active"
    · simp [disable_triggers, h, List.lookup, hmn, ih hm.2]
    · have hb : (st == "Active") = false := beq_eq_false_iff_ne.mpr h
      simp [disable_triggers, hb, ih hm.2]

lemma enable_triggers_cons_of_not_mem (n v : String)
    (state files : List (String × String)) (h : n ∉ files.map Prod.fst) :
    enable_triggers ((n, v) :: state) files = enable_triggers state files := by
  unfold enable_triggers
  apply List.map_congr_left
  intro f hf
  have hfn : (f.1 == n) = false := by
    apply beq_eq_false_iff_ne.mpr
    intro he
    exact h (he ▸ List.mem_map_of_mem Prod.fst hf)
  simp [List.lookup, hfn]

lemma enable_triggers_cons (state : List (String × String))
    (f : String × String) (files : List (String × String)) :
    enable_triggers state (f :: files) =
      (match List.lookup f.1 state with
       | some orig => (f.1, orig)
       | none => f) :: enable_triggers state files := by
  unfold enable_triggers
  rw [List.map_cons]

lemma trigger_roundtrip (files : List (String × String))
    (h : (files.map Prod.fst).Nodup) :
    enable_triggers (disable_triggers files).2 (disable_triggers files).1 = files := by
  induction files with
  | nil => rfl
  | cons hd tl ih =>
    obtain ⟨n, st⟩ := hd
    simp only [List.map_cons, List.nodup_cons] at h
    obtain ⟨hn, htl⟩ := h
    have hn1 : n ∉ ((disable_triggers tl).1).map Prod.fst := by
      rw [disable_triggers_names]
      exact hn
    by_cases hA : st = "Active"
    · subst hA
      have hstep : disable_triggers ((n, "Active") :: tl) =
          ((n, "Inactive") :: (disable_triggers tl).1,
           (n, "Active") :: (disable_triggers tl).2) := by
        simp [disable_triggers]
      rw [hstep]
      rw [enable_triggers_cons]
      simp only [List.lookup, beq_self_eq_true]
      rw [enable_triggers_cons_of_not_mem n "Active" _ _ hn1]
      rw [ih htl]
    · have hb : (st == "Active") = false := beq_eq_false_iff_ne.mpr hA
      have hstep : disable_triggers ((n, st) :: tl) =
          ((n, st) :: (disable_triggers tl).1, (disable_triggers tl).2) := by
        simp [disable_triggers, hb]
      rw [hstep]
      rw [enable_triggers_cons]
      rw [disable_triggers_changed_lookup_none tl n hn]
      rw [ih htl]

/-! Section: Custom setting manager (`sf_custom_settings.py`)

The single settings record is modelled as a total map from field name to
boolean — `record.get(field, False)` — so an absent field reads as
`false`, exactly as in `check_status` (line 376) and `restore_state`
(line 485). -/

/-- Embedding of `CustomSettingManager.check_status` (lines 344-381): the queried
value of every checkbox field, as an association list. -/
def check_status (record : String → Bool) (fields : List String) :
    List (String × Bool) :=
  fields.map fun f => (f, record f)

/-- Effect on the remote record of one `data update record --values`
call built from `update_data` (lines 416/485): each listed field takes
its listed value, every other field keeps its value. -/
def applyUpdateData (record : String → Bool) (upd : List (String × Bool)) :
    String → Bool :=
  fun f => (List.lookup f upd).getD (record f)

/-- Embedding of `CustomSettingManager.update_checkboxes` (lines 406-445): reads the
current status, then sets every checkbox field to `check_all`.  Returns
(saved original status, remote record after). -/
def update_checkboxes (record : String → Bool) (fields : List String)
    (check_all : Bool) : List (String × Bool) × (String → Bool) :=
  (check_status record fields,
   applyUpdateData record (fields.map fun f => (f, check_all)))

/-- The restore write of `CustomSettingManager.restore_state`
(lines 484-503): each checkbox field is set back to
`saved_state.get(field, False)`. -/
def restore_checkboxes (saved : List (String × Bool)) (fields : List String)
    (record : String → Bool) : String → Bool :=
  applyUpdateData record (fields.map fun f => (f, (List.lookup f saved).getD false))

lemma lookup_map_self {β : Type} (h : String → β) (l : List String) (f : String) :
    List.lookup f (l.map fun g => (g, h g)) =
      if f ∈ l then some (h f) else none := by
  induction l with
  | nil => simp [List.lookup]
  | cons a l ih =>
    by_cases hfa : f = a
    · subst hfa
      simp [List.lookup]
    · have hb : (f == a) = false := beq_eq_false_iff_ne.mpr hfa
      simp [List.lookup, hb, ih, hfa]

lemma checkbox_roundtrip (record : String → Bool) (fields : List String)
    (check_all : Bool) (f : String) :
    restore_checkboxes (update_checkboxes record fields check_all).1 fields
      (update_checkboxes record fields check_all).2 f = record f := by
  unfold restore_checkboxes update_checkboxes applyUpdateData check_status
  by_cases hf : f ∈ fields
  · simp [lookup_map_self, hf]
  · simp [lookup_map_self, hf]

/-- C4: a mutate transition followed immediately by the matching restore
(no external interference) is the identity on remote state — for the
trigger kind (disable then enable restores every trigger file's status,
given that the retrieved metadata files have distinct names) and for the
checkbox kind (uncheck-all/check-all then restore gives every field its
pre-mutate value). -/
theorem mutate_restore_roundtrip (files : List (String × String))
    (hnodup : (files.map Prod.fst).Nodup)
    (record : String → Bool) (fields : List String) (check_all : Bool)
    (f : String) :
    enable_triggers (disable_triggers files).2 (disable_triggers files).1 = files ∧
    restore_checkboxes (update_checkboxes record fields check_all).1 fields
      (update_checkboxes record fields check_all).2 f = record f :=
  ⟨trigger_roundtrip files hnodup, checkbox_roundtrip record fields check_all f⟩

/-- A concrete field valuation for the C4 witness. -/
def recordW : String → Bool :=
  fun f => f == "Disable_ESB_Events__c"

/-- Witness for C4 on a concrete org state: two triggers (one active,
one inactive) and two checkbox fields (one true, one false). -/
theorem mutate_restore_roundtrip_witness :
    ((["AccountTrigger", "CaseTrigger"] : List String).Nodup ∧
      enable_triggers
        (disable_triggers [("AccountTrigger", "Active"), ("CaseTrigger", "Inactive")]).2
        (disable_triggers [("AccountTrigger", "Active"), ("CaseTrigger", "Inactive")]).1 =
        [("AccountTrigger", "Active"), ("CaseTrigger", "Inactive")]) ∧
    restore_checkboxes
      (update_checkboxes recordW ["Disable_ESB_Events__c", "Mute_Alerts__c"] false).1
      ["Disable_ESB_Events__c", "Mute_Alerts__c"]
      (update_checkboxes recordW ["Disable_ESB_Events__c", "Mute_Alerts__c"] false).2
      "Disable_ESB_Events__c" = recordW "Disable_ESB_Events__c" := by
  have h := mutate_restore_roundtrip
    [("AccountTrigger", "Active"), ("CaseTrigger", "Inactive")]
    (by decide) recordW ["Disable_ESB_Events__c", "Mute_Alerts__c"] false
    "Disable_ESB_Events__c"
  exact ⟨⟨by decide, h.1⟩, h.2⟩

/-! Section: The trigger `main` flows (`sf_triggers.py` lines 476-553) -/

/-- How one run of `main` in disable mode ends. -/
inductive TrigDisableResult where
  | conflictExit
  | retrieveFailedExit
  | noActiveExit
  | deployedOk
  | deployFailedExit
deriving DecidableEq, Repr

/-- Observable effect of one disable-mode run: its result, the state
file on disk afterwards, and whether the deploy step ran. -/
structure TrigDisableOut where
  result : TrigDisableResult
  stateFile : Option (List (String × String))
  deployInvoked : Bool
deriving DecidableEq, Repr

/-- Disable mode of `main` (lines 513-553), after the sandbox check:
with `--reset` the existing state file is removed first; if a state file
(still) exists the run warns and exits 1 without touching anything;
otherwise triggers are retrieved, disabled, the changed set saved via
`save_state` (lines 371-379: refused when a state file exists and no
force flag), and deployed. -/
def triggers_disable_main (stateFile : Option (List (String × String)))
    (reset : Bool) (retrieveOk : Bool) (files : List (String × String))
    (deployOk : Bool) : TrigDisableOut :=
  let st0 := if reset then none else stateFile
  if st0.isSome && !reset then
    { result := .conflictExit, stateFile := st0, deployInvoked := false }
  else if !retrieveOk then
    { result := .retrieveFailedExit, stateFile := st0, deployInvoked := false }
  else
    let changed := (disable_triggers files).2
    if changed.isEmpty then
      { result := .noActiveExit, stateFile := st0, deployInvoked := false }
    else
      let st1 := if st0.isSome && !reset then st0 else some changed
      if deployOk then
        { result := .deployedOk, stateFile := st1, deployInvoked := true }
      else
        { result := .deployFailedExit, stateFile := st1, deployInvoked := true }

/-- How one run of `main` in enable (restore) mode ends. -/
inductive TrigEnableResult where
  | noStateExit
  | retrieveFailedExit
  | restoredOk
  | deployFailedExit
deriving DecidableEq, Repr

/-- Observable effect of one enable-mode run. -/
structure TrigEnableOut where
  result : TrigEnableResult
  filesAfter : List (String × String)
  stateFileAfter : Option (List (String × String))
  deployInvoked : Bool
deriving DecidableEq, Repr

/-- Enable (restore) mode of `main` (lines 485-512), after the sandbox
check: `load_state` yields `{}` when the file is missing (lines
381-387); an empty state exits 1 before the retrieve and deploy steps;
otherwise the current triggers are retrieved, statuses restored from the
state, deployed, and on success the state file is deleted.  Note the
state file records trigger names and statuses only — no environment —
and `targetOrg` is never compared against anything recorded in it. -/
def triggers_enable_main (stateFile : Option (List (String × String)))
    (targetOrg : String) (retrieveOk : Bool) (files : List (String × String))
    (deployOk : Bool) : TrigEnableOut :=
  let state := stateFile.getD []
  if state.isEmpty then
    { result := .noStateExit, filesAfter := files, stateFileAfter := stateFile
      deployInvoked := false }
  else if !retrieveOk then
    { result := .retrieveFailedExit, filesAfter := files, stateFileAfter := stateFile
      deployInvoked := false }
  else
    let files1 := enable_triggers state files
    if deployOk then
      { result := .restoredOk, filesAfter := files1, stateFileAfter := none
        deployInvoked := true }
    else
      { result := .deployFailedExit, filesAfter := files1, stateFileAfter := stateFile
        deployInvoked := true }

/-! Section: The validation-rule disable flow (`sf_validations.py` lines 194-295)

A retrieved validation rule file is a `(ruleName, activeFlag)` pair
(`activeFlag = true` iff the `active` element text is `'true'`). -/

/-- How one disable-mode run of
`manage_validation_rules_in_temp_project` ends. -/
inductive ValDisableResult where
  | noRules
  | deployed (modified alreadyInactive : Nat)
  | deployFailed (modified alreadyInactive : Nat)
  | allInactive (modified alreadyInactive : Nat)
deriving DecidableEq, Repr

/-- Observable effect of one disable-mode run: result and counts, the
`original_validation_rules` backup directory afterwards (`none` when it
does not exist), the remote rules afterwards, and whether deploy ran. -/
structure ValDisableOut where
  result : ValDisableResult
  backup : Option (List (String × Bool))
  remoteAfter : List (String × Bool)
  deployInvoked : Bool
deriving DecidableEq, Repr

/-- Disable mode of `manage_validation_rules_in_temp_project` (lines
194-295), after the safety check.  The whole `MetadataCache` project —
including any `original_validation_rules` backup from an earlier run
(the first argument) — is deleted up front (lines 198-199) and a fresh
retrieve from the target fills the rules directory with the current
remote rules.  Every retrieved rule file is then copied into the backup
(line 250) — changed or not — active rules are rewritten to inactive and
counted as `modified`, the rest as `skipped`; when at least one rule was
modified the project is deployed. -/
def val_disable (priorBackup : Option (List (String × Bool)))
    (remoteRules : List (String × Bool)) (deployOk : Bool) : ValDisableOut :=
  if remoteRules.isEmpty then
    { result := .noRules, backup := none, remoteAfter := remoteRules
      deployInvoked := false }
  else
    let modified := (remoteRules.filter fun r => r.2).length
    let skipped := (remoteRules.filter fun r => !r.2).length
    let localRules := remoteRules.map fun r => (r.1, false)
    if modified > 0 then
      if deployOk then
        { result := .deployed modified skipped, backup := some remoteRules
          remoteAfter := localRules, deployInvoked := true }
      else
        { result := .deployFailed modified skipped, backup := some remoteRules
          remoteAfter := remoteRules, deployInvoked := true }
    else
      { result := .allInactive modified skipped, backup := some remoteRules
        remoteAfter := remoteRules, deployInvoked := false }

/-! Section: Custom-setting snapshot store (`sf_custom_settings.py` lines 447-514) -/

/-- The JSON state file written by `CustomSettingManager.save_state`:
the org it was taken in (modelled as `Option` to cover a file with no
`org` key) and the saved checkbox values. -/
structure CsStateFile where
  org : Option String
  checkboxes : List (String × Bool)
deriving DecidableEq, Repr

/-- Embedding of `CustomSettingManager.load_state` (lines 458-471): missing file is
an error; a recorded org different from the targeted org (including a
missing `org` key, which reads as `None`) is a distinct error; otherwise
the saved checkbox map is returned. -/
def load_state (file : Option CsStateFile) (targetOrg : String) :
    Except String (List (String × Bool)) :=
  match file with
  | none => .error "No saved state found. Run with --uncheck-all first."
  | some data =>
      if data.org == some targetOrg then .ok data.checkboxes
      else .error ("State file is for org \x27" ++
        (match data.org with | some o => o | none => "None") ++
        "\x27 but you\x27re targeting \x27" ++ targetOrg ++ "\x27")

/-- Observable effect of one `restore_state` call. -/
structure CsRestoreOut where
  outcome : Except String Unit
  updateInvoked : Bool
  remoteAfter : String → Bool
  stateFileAfter : Option CsStateFile

/-- Embedding of `CustomSettingManager.restore_state` (lines 473-514): load the saved
state (hard error if absent or for another org), look up the settings
record (error when none exists), then write every checkbox field back to
its saved value and delete the state file.  No remote write happens on
any of the error paths. -/
def restore_state (file : Option CsStateFile) (targetOrg : String)
    (checkbox_fields : List String) (recordFound : Bool)
    (remote : String → Bool) : CsRestoreOut :=
  match load_state file targetOrg with
  | .error m =>
      { outcome := .error m, updateInvoked := false, remoteAfter := remote
        stateFileAfter := file }
  | .ok saved =>
      if !recordFound then
        { outcome := .error ("Error querying custom setting: No record found in " ++
            "ESB_Events_Controller__c. Please create a record first in your org.")
          updateInvoked := false, remoteAfter := remote, stateFileAfter := file }
      else
        { outcome := .ok ()
          updateInvoked := true
          remoteAfter := restore_checkboxes saved checkbox_fields remote
          stateFileAfter := none }

/-! Section: Claims C5-C7 and C9 -/

/-- Counterexample to C5 as stated: for the validation-rule kind, a
second disable run over the live snapshot of a first one does NOT stop
with a conflict error — the earlier backup is wiped and re-created from
the already-mutated remote rules, so the on-disk snapshot after the
second call differs from the one the first call wrote. -/
theorem second_mutate_overwrites_snapshot_counterexample :
    (val_disable none [("Require_Amount", true)] true).backup =
      some [("Require_Amount", true)] ∧
    (val_disable none [("Require_Amount", true)] true).remoteAfter =
      [("Require_Amount", false)] ∧
    (val_disable (some [("Require_Amount", true)]) [("Require_Amount", false)] true).result =
      .allInactive 0 1 ∧
    (val_disable (some [("Require_Amount", true)]) [("Require_Amount", false)] true).backup =
      some [("Require_Amount", false)] ∧
    (val_disable (some [("Require_Amount", true)]) [("Require_Amount", false)] true).backup ≠
      some [("Require_Amount", true)] := by
  refine ⟨rfl, rfl, rfl, rfl, ?_⟩
  decide

/-- C5 (amended): for the trigger kind the guarantee holds — a second
disable run without `--reset` exits with the state-file-exists error
before retrieving, saving or deploying anything, and the snapshot
written by the first run is left unaltered.  (The validation-rule kind
instead deletes and recreates its backup without raising — see the
counterexample.) -/
theorem trigger_second_mutate_conflicts (s : List (String × String))
    (retrieveOk : Bool) (files : List (String × String)) (deployOk : Bool) :
    triggers_disable_main (some s) false retrieveOk files deployOk =
      { result := .conflictExit, stateFile := some s, deployInvoked := false } := by
  rfl

/-- Counterexample to C6 as stated: a trigger restore never checks any
recorded environment — the trigger state file records none — so a
snapshot taken while targeting one org is applied unchanged, and
deployed, when the operator targets a different org. -/
theorem restore_ignores_environment_counterexample :
    triggers_enable_main (some [("AccountTrigger", "Active")]) "QASB2" true
        [("AccountTrigger", "Inactive")] true =
      { result := .restoredOk
        filesAfter := [("AccountTrigger", "Active")]
        stateFileAfter := none
        deployInvoked := true } := by
  decide

/-- C6 (amended): the checkbox-settings restore does enforce the
invariant — `load_state` raises a distinct error whenever the state
file's recorded org differs from the targeted org (including a file
recording no org at all), and no remote write happens.  The trigger
restore records no environment and consults none: its outcome is
independent of the targeted org. -/
theorem restore_environment_guard (data : CsStateFile) (target : String)
    (fields : List String) (recordFound : Bool) (remote : String → Bool)
    (hmismatch : data.org ≠ some target) :
    (∃ m, (restore_state (some data) target fields recordFound remote).outcome =
        .error m) ∧
    (restore_state (some data) target fields recordFound remote).updateInvoked = false ∧
    (restore_state (some data) target fields recordFound remote).stateFileAfter =
      some data ∧
    ∀ (sf : Option (List (String × String))) (t1 t2 : String)
      (r : Bool) (fs : List (String × String)) (d : Bool),
      triggers_enable_main sf t1 r fs d = triggers_enable_main sf t2 r fs d := by
  have hbeq : (data.org == some target) = false := beq_eq_false_iff_ne.mpr hmismatch
  have hload : load_state (some data) target = .error ("State file is for org \x27" ++
      (match data.org with | some o => o | none => "None") ++
      "\x27 but you\x27re targeting \x27" ++ target ++ "\x27") := by
    unfold load_state
    simp [hbeq]
  have houtcome : (restore_state (some data) target fields recordFound remote).outcome =
      .error ("State file is for org \x27" ++
        (match data.org with | some o => o | none => "None") ++
        "\x27 but you\x27re targeting \x27" ++ target ++ "\x27") := by
    unfold restore_state
    rw [hload]
  refine ⟨⟨_, houtcome⟩, ?_, ?_, ?_⟩
  · unfold restore_state
    rw [hload]
  · unfold restore_state
    rw [hload]
  · intro sf t1 t2 r fs d
    rfl

/-- Witness for the amended C6: a state file recording no org at all,
restored while targeting `QASB1`, errors without any remote write. -/
theorem restore_environment_guard_witness :
    ((CsStateFile.mk none [("Disable_ESB_Events__c", true)]).org ≠ some "QASB1") ∧
    ((∃ m, (restore_state (some (CsStateFile.mk none [("Disable_ESB_Events__c", true)]))
        "QASB1" ["Disable_ESB_Events__c"] true recordW).outcome = .error m) ∧
      (restore_state (some (CsStateFile.mk none [("Disable_ESB_Events__c", true)]))
        "QASB1" ["Disable_ESB_Events__c"] true recordW).updateInvoked = false ∧
      (restore_state (some (CsStateFile.mk none [("Disable_ESB_Events__c", true)]))
        "QASB1" ["Disable_ESB_Events__c"] true recordW).stateFileAfter =
        some (CsStateFile.mk none [("Disable_ESB_Events__c", true)]) ∧
      ∀ (sf : Option (List (String × String))) (t1 t2 : String)
        (r : Bool) (fs : List (String × String)) (d : Bool),
        triggers_enable_main sf t1 r fs d = triggers_enable_main sf t2 r fs d) :=
  ⟨by decide,
    restore_environment_guard (CsStateFile.mk none [("Disable_ESB_Events__c", true)])
      "QASB1" ["Disable_ESB_Events__c"] true recordW (by decide)⟩

/-- C7: a restore with no stored snapshot refuses before any remote
write — the trigger restore exits with "No triggers to restore" without
invoking retrieve or deploy, and the checkbox restore raises the
no-saved-state error without invoking the record update. -/
theorem restore_without_snapshot_refuses (target : String) (retrieveOk : Bool)
    (files : List (String × String)) (deployOk : Bool)
    (fields : List String) (recordFound : Bool) (remote : String → Bool) :
    (triggers_enable_main none target retrieveOk files deployOk).result =
      .noStateExit ∧
    (triggers_enable_main none target retrieveOk files deployOk).deployInvoked =
      false ∧
    (restore_state none target fields recordFound remote).outcome =
      .error "No saved state found. Run with --uncheck-all first." ∧
    (restore_state none target fields recordFound remote).updateInvoked = false := by
  exact ⟨rfl, rfl, rfl, rfl⟩

/-- Counterexample to C9 as stated: the validation-rule backup is not
restricted to the items whose value changed — a rule that was already
inactive (hence unchanged by the disable) is still copied into the
snapshot directory. -/
theorem snapshot_contains_unchanged_counterexample :
    (val_disable none [("Already_Off", false)] true).result = .allInactive 0 1 ∧
    (val_disable none [("Already_Off", false)] true).backup =
      some [("Already_Off", false)] := by
  exact ⟨rfl, rfl⟩

/-- C9 (amended): the trigger snapshot does record exactly the items
whose value changed (those read as `Active`, stored under their original
value), while the validation-rule run reports the count of changed rules
and of rules already inactive but backs up every retrieved rule file;
on 3 active and 0 inactive rules it reports `modified = 3,
alreadyInactive = 0`. -/
theorem mutate_snapshot_and_counts (files : List (String × String))
    (rules : List (String × Bool)) (prior : Option (List (String × Bool)))
    (hrules : rules ≠ []) :
    (disable_triggers files).2 =
      (files.filter fun f => f.2 == "Active").map (fun f => (f.1, "Active")) ∧
    (val_disable prior rules true).backup = some rules ∧
    ((rules.filter fun r => r.2).length > 0 →
      (val_disable prior rules true).result =
        .deployed (rules.filter fun r => r.2).length
          (rules.filter fun r => !r.2).length) ∧
    (val_disable none
        [("VR1", true), ("VR2", true), ("VR3", true)] true).result =
      .deployed 3 0 := by
  have hne : rules.isEmpty = false := by
    cases rules with
    | nil => exact absurd rfl hrules
    | cons a l => rfl
  refine ⟨?_, ?_, ?_, rfl⟩
  · induction files with
    | nil => rfl
    | cons hd tl ih =>
      obtain ⟨n, st⟩ := hd
      by_cases h : st = "Active"
      · subst h
        simp [disable_triggers, List.filter, ih]
      · have hb : (st == "Active") = false := beq_eq_false_iff_ne.mpr h
        simp [disable_triggers, hb, List.filter, ih]
  · unfold val_disable
    rw [hne]
    simp only [Bool.false_eq_true, if_false]
    by_cases hpos : (rules.filter fun r => r.2).length > 0
    · rw [if_pos hpos]
      rfl
    · rw [if_neg hpos]
  · intro hpos
    unfold val_disable
    rw [hne]
    simp only [Bool.false_eq_true, if_false]
    rw [if_pos hpos]
    rfl

/-- Witness for the amended C9 on a mixed concrete state: one active
and one inactive trigger, two active validation rules. -/
theorem mutate_snapshot_and_counts_witness :
    (([("VR1", true), ("VR2", true)] : List (String × Bool)) ≠ []) ∧
    ((disable_triggers [("AccountTrigger", "Active"), ("CaseTrigger", "Inactive")]).2 =
      ([("AccountTrigger", "Active"), ("CaseTrigger", "Inactive")].filter
        fun f => f.2 == "Active").map (fun f => (f.1, "Active")) ∧
    (val_disable none [("VR1", true), ("VR2", true)] true).backup =
      some [("VR1", true), ("VR2", true)] ∧
    ((([("VR1", true), ("VR2", true)] : List (String × Bool)).filter
        fun r => r.2).length > 0 →
      (val_disable none [("VR1", true), ("VR2", true)] true).result =
        .deployed (([("VR1", true), ("VR2", true)] : List (String × Bool)).filter
            fun r => r.2).length
          (([("VR1", true), ("VR2", true)] : List (String × Bool)).filter
            fun r => !r.2).length) ∧
    (val_disable none
        [("VR1", true), ("VR2", true), ("VR3", true)] true).result =
      .deployed 3 0) :=
  ⟨by decide,
    mutate_snapshot_and_counts
      [("AccountTrigger", "Active"), ("CaseTrigger", "Inactive")]
      [("VR1", true), ("VR2", true)] none (by decide)⟩

/-! Section: Query Cache (`SalesforceCLI.query_records` and `log_query`) -/

/-- One row of `logs/queries.csv` as written by `log_query`
(lines 23-36): timestamp, org alias, cache-hit flag, literal query
text.  Timestamps are abstracted to a counter supplied by the caller. -/
structure LogRow where
  timestamp : Nat
  org : String
  cached : Bool
  query : String
deriving DecidableEq, Repr

/-- The mutable state of one `SalesforceCLI` instance that
`query_records` touches: the target org, the in-memory query cache
(keyed by the literal query text), and the audit log. -/
structure CLIState where
  targetOrg : Option String
  queryCache : List (String × JVal)
  queryLog : List LogRow

/-- The org alias `self.target_org or 'default'` as passed to `log_query`. -/
def orgAlias (st : CLIState) : String :=
  st.targetOrg.getD "default"

/-- The records extraction of `query_records` line 423:
`result.get('result', {}).get('records', [])`.  A non-dict `result`
value has no `.get` and raises (`AttributeError`), which the
surrounding handler turns into the cache-empty-and-reraise path. -/
def extractRecords (json : List (String × JVal)) : Except String JVal :=
  match jget json "result" with
  | none => .ok (.jarr [])
  | some (.jobj fs) => .ok ((jget fs "records").getD (.jarr []))
  | some _ => .error "AttributeError"

/-- What one `query_records` call returns (or raises). -/
inductive QueryOutcome where
  | ok (records : JVal)
  | raised (msg : String)

/-- Observable effect of one `query_records` call: its outcome, the
instance state afterwards, and whether `_execute_sf_command` ran. -/
structure QueryStep where
  outcome : QueryOutcome
  state : CLIState
  executorInvoked : Bool

/-- Embedding of `SalesforceCLI.query_records` (lines 410-444), given the subprocess
outcome `proc` that `_execute_sf_command` would observe on a cache miss:

* cache hit — log a cache-hit row and return the stored value without
  touching the executor;
* cache miss — log a cache-miss row, run the executor; on success store
  and return the extracted records; on a failed result store the empty
  list and return it; on an exception store the empty list and re-raise. -/
def query_records (st : CLIState) (q : String) (now : Nat) (proc : ProcResult) :
    QueryStep :=
  match List.lookup q st.queryCache with
  | some v =>
      { outcome := .ok v
        state := { st with queryLog := st.queryLog ++ [⟨now, orgAlias st, true, q⟩] }
        executorInvoked := false }
  | none =>
      let st1 : CLIState :=
        { st with queryLog := st.queryLog ++ [⟨now, orgAlias st, false, q⟩] }
      match execute_sf_command proc with
      | .err e =>
          { outcome := .raised e.message
            state := { st1 with queryCache := (q, .jarr []) :: st1.queryCache }
            executorInvoked := true }
      | .ok json =>
          if !json.isEmpty && statusEqZero (jget json "status") then
            match extractRecords json with
            | .ok records =>
                { outcome := .ok records
                  state := { st1 with queryCache := (q, records) :: st1.queryCache }
                  executorInvoked := true }
            | .error m =>
                { outcome := .raised m
                  state := { st1 with queryCache := (q, .jarr []) :: st1.queryCache }
                  executorInvoked := true }
          else
            { outcome := .ok (.jarr [])
              state := { st1 with queryCache := (q, .jarr []) :: st1.queryCache }
              executorInvoked := true }

/-- The C8 guarantee for a pair of calls with the same query text,
starting from a cache miss: the first call invokes the executor and
stores a value under the query (the empty list whenever it raised); the
second call skips the executor, returns exactly the stored value and
leaves the cache unchanged; each call appends exactly one audit row
carrying its timestamp, the org alias, its cache-hit flag and the
literal query text. -/
def QueryCacheSpec (st : CLIState) (q : String) (t1 t2 : Nat)
    (p1 p2 : ProcResult) : Prop :=
  (query_records st q t1 p1).executorInvoked = true ∧
  (∃ v, List.lookup q (query_records st q t1 p1).state.queryCache = some v ∧
    (query_records (query_records st q t1 p1).state q t2 p2).outcome = .ok v ∧
    (∀ m, (query_records st q t1 p1).outcome = .raised m → v = .jarr [])) ∧
  (query_records (query_records st q t1 p1).state q t2 p2).executorInvoked = false ∧
  (query_records (query_records st q t1 p1).state q t2 p2).state.queryCache =
    (query_records st q t1 p1).state.queryCache ∧
  (query_records st q t1 p1).state.queryLog =
    st.queryLog ++ [⟨t1, orgAlias st, false, q⟩] ∧
  (query_records (query_records st q t1 p1).state q t2 p2).state.queryLog =
    (query_records st q t1 p1).state.queryLog ++ [⟨t2, orgAlias st, true, q⟩]

lemma query_records_hit (st : CLIState) (q : String) (now : Nat)
    (p : ProcResult) (v : JVal) (hhit : List.lookup q st.queryCache = some v) :
    query_records st q now p =
      { outcome := .ok v
        state := { st with queryLog := st.queryLog ++ [⟨now, orgAlias st, true, q⟩] }
        executorInvoked := false } := by
  unfold query_records
  rw [hhit]

lemma query_records_miss_decomp (st : CLIState) (q : String) (now : Nat)
    (p : ProcResult) (hmiss : List.lookup q st.queryCache = none) :
    (query_records st q now p).executorInvoked = true ∧
    ∃ v, (query_records st q now p).state =
        { targetOrg := st.targetOrg
          queryCache := (q, v) :: st.queryCache
          queryLog := st.queryLog ++ [⟨now, orgAlias st, false, q⟩] } ∧
      (∀ m, (query_records st q now p).outcome = .raised m → v = .jarr []) := by
  simp only [query_records, hmiss]
  split
  · exact ⟨rfl, .jarr [], rfl, fun _ _ => rfl⟩
  · split
    · split
      · exact ⟨rfl, _, rfl, fun m hm => QueryOutcome.noConfusion hm⟩
      · exact ⟨rfl, .jarr [], rfl, fun _ _ => rfl⟩
    · exact ⟨rfl, .jarr [], rfl, fun m hm => QueryOutcome.noConfusion hm⟩

/-- C8: starting from a cache miss for `q`, the first call executes the
remote command and stores a value (the empty record list when the call
raised), the second call with the identical query text returns the
stored value without invoking the Command Executor, and each call
appends exactly one audit row (timestamp, org alias, cache-hit flag,
literal query text). -/
theorem query_cache_behaviour (st : CLIState) (q : String) (t1 t2 : Nat)
    (p1 p2 : ProcResult) (hmiss : List.lookup q st.queryCache = none) :
    QueryCacheSpec st q t1 t2 p1 p2 := by
  obtain ⟨hinv1, v, hstate1, hraised⟩ := query_records_miss_decomp st q t1 p1 hmiss
  have hlookup : List.lookup q (query_records st q t1 p1).state.queryCache = some v := by
    rw [hstate1]
    simp [List.lookup]
  have hhit := query_records_hit (query_records st q t1 p1).state q t2 p2 v hlookup
  have horg : orgAlias (query_records st q t1 p1).state = orgAlias st := by
    rw [hstate1]
    rfl
  refine ⟨hinv1, ⟨v, hlookup, ?_, hraised⟩, ?_, ?_, ?_, ?_⟩
  · rw [hhit]
  · rw [hhit]
  · rw [hhit]
  · rw [hstate1]
  · rw [hhit, horg]

/-- The fresh state of a `SalesforceCLI('QASB1')` instance. -/
def initCLIState : CLIState :=
  { targetOrg := some "QASB1", queryCache := [], queryLog := [] }

/-- A successful query subprocess outcome with two records. -/
def procQueryOk : ProcResult :=
  { returncode := 0
    jsonOutput :=
      [("status", .jnum 0),
       ("result", .jobj
         [("totalSize", .jnum 2),
          ("records", .jarr [.jobj [("Id", .jstr "001A")],
                             .jobj [("Id", .jstr "001B")]])])]
    stderr := "" }

/-- Witness for C8 on a fresh instance and a concrete successful
query. -/
theorem query_cache_behaviour_witness :
    List.lookup "SELECT Id FROM Account" initCLIState.queryCache = none ∧
    QueryCacheSpec initCLIState "SELECT Id FROM Account" 1 2 procQueryOk procQueryOk :=
  ⟨rfl, query_cache_behaviour initCLIState "SELECT Id FROM Account" 1 2
    procQueryOk procQueryOk rfl⟩

/-- C10: when the first `query_records` call for a query raises, the
empty record list is cached, so every repeated call with the identical
query text silently succeeds with the empty list, without invoking the
external tool. -/
theorem query_error_then_cached_empty (st : CLIState) (q : String) (t1 t2 : Nat)
    (p1 p2 : ProcResult) (m : String)
    (hmiss : List.lookup q st.queryCache = none)
    (hraised : (query_records st q t1 p1).outcome = .raised m) :
    (query_records (query_records st q t1 p1).state q t2 p2).outcome =
      .ok (.jarr []) ∧
    (query_records (query_records st q t1 p1).state q t2 p2).executorInvoked =
      false := by
  obtain ⟨-, v, hstate1, hv⟩ := query_records_miss_decomp st q t1 p1 hmiss
  have hveq : v = .jarr [] := hv m hraised
  subst hveq
  have hlookup : List.lookup q (query_records st q t1 p1).state.queryCache =
      some (.jarr []) := by
    rw [hstate1]
    simp [List.lookup]
  have hhit := query_records_hit (query_records st q t1 p1).state q t2 p2 _ hlookup
  rw [hhit]
  exact ⟨rfl, rfl⟩

/-- A failing query subprocess outcome: non-zero exit, error JSON. -/
def procQueryErr : ProcResult :=
  { returncode := 1
    jsonOutput := [("status", .jnum 1), ("message", .jstr "Invalid SOQL")]
    stderr := "" }

/-- Witness for C10: the concrete failing call raises, the repeat
returns the cached empty list without invoking the executor. -/
theorem query_error_then_cached_empty_witness :
    (List.lookup "SELECT Id FROM Bogus" initCLIState.queryCache = none ∧
      (query_records initCLIState "SELECT Id FROM Bogus" 1 procQueryErr).outcome =
        .raised "An unexpected error occurred while running an SF CLI command: SF CLI command failed: Invalid SOQL") ∧
    ((query_records (query_records initCLIState "SELECT Id FROM Bogus" 1 procQueryErr).state
        "SELECT Id FROM Bogus" 2 procQueryErr).outcome = .ok (.jarr []) ∧
      (query_records (query_records initCLIState "SELECT Id FROM Bogus" 1 procQueryErr).state
        "SELECT Id FROM Bogus" 2 procQueryErr).executorInvoked = false) :=
  ⟨⟨rfl, rfl⟩,
    query_error_then_cached_empty initCLIState "SELECT Id FROM Bogus" 1 2
      procQueryErr procQueryErr _ rfl rfl⟩

end Sandcastle
